import Mathlib

set_option autoImplicit false

namespace WikiSkill

/- Shallow embedding of the OVOS Wikipedia skill (src/__init__.py):
   WikipediaSolver (query resolution) and WikipediaSkill (facade with the
   "tell me more" pagination cursor).  External collaborators — the
   wikipedia_for_humans library, the heuristic keyword extractor, the base
   QuestionSolver search and sentence splitter — are parameters of an Env. -/

/-- Python truthiness or-default for an optional string: models the source
pattern x = a or b where a may be None or the empty string (both falsy). -/
def pyOr (o : Option String) (d : String) : String :=
  match o with
  | none => d
  | some s => if s = "" then d else s

/-- Python truthiness or-default for a plain string: s or d. -/
def pyOrS (s d : String) : String :=
  if s = "" then d else s

/-- Python truthiness test for an optional string (None and "" are falsy). -/
def pyTruthy (o : Option String) : Bool :=
  match o with
  | none => false
  | some s => s != ""

/-- Python lang.split("-")[0]: the prefix of a locale tag before the first
region separator (the whole tag when no separator occurs). -/
def langCode (s : String) : String :=
  String.mk (s.toList.takeWhile (fun c => c != '-'))

/-- The language resolution performed identically at the top of
extract_and_search and get_data:
lang = context.get("lang") or self.default_lang; lang = lang.split("-")[0]. -/
def resolveLang (ctxLang : Option String) (dflt : String) : String :=
  langCode (pyOr ctxLang dflt)

/-- Request context mapping; the source reads only its "lang" entry. -/
structure Ctx where
  lang : Option String
  deriving DecidableEq

/-- One element of page_data["sections"]: a dict with "title" and "text". -/
structure PageSection where
  title : Option String
  text : String
  deriving DecidableEq

/-- Non-empty result of wikipedia_for_humans.page_data: title (possibly
missing), sections and images.  The Python value None or an empty dict is
modelled as Option.none at the call site. -/
structure PageRaw where
  title : Option String
  sections : List PageSection
  images : List String
  deriving DecidableEq

/-- Result dict of the inherited QuestionSolver.search used by
extract_and_search; get_spoken_answer reads "summary", get_image "images". -/
structure SDict where
  summary : Option String
  images : List String
  deriving DecidableEq

/-- The empty dict returned by extract_and_search when no keyword is found. -/
def SDict.empty : SDict := { summary := none, images := [] }

/-- External collaborators of the solver: the wikipedia_for_humans fetchers
(each taking the query text and the two-letter language), the heuristic
keyword extractor, the base-class search, the base-class sentence splitter,
and the solver's configured default language. -/
structure Env where
  default_lang : String
  page_data : String → String → Option PageRaw
  tldr : String → String → String
  summary : String → String → String
  tldr_about : String → String → String → String
  ask_about : String → String → String → String
  extract_subject : String → String → String
  search : String → Ctx → SDict
  sentence_split : String → List String

/-- Splits l as p ++ sep ++ q at the LAST occurrence of sep.  This is the
anchored greedy regex (.*)sep(.*) that the simplematch template
"what is the {subquery} of {query}" compiles to: the first hole is greedy,
so the split happens at the rightmost occurrence of the literal separator. -/
def splitLastInfix (sep : List Char) : List Char → Option (List Char × List Char)
  | [] => if sep.isEmpty then some ([], []) else none
  | c :: cs =>
    match splitLastInfix sep cs with
    | some (p, q) => some (c :: p, q)
    | none =>
      if sep.isPrefixOf (c :: cs) then some ([], (c :: cs).drop sep.length)
      else none

/-- simplematch.match("what is the {subquery} of {query}", s): anchored,
case-sensitive match of the literal template; on success returns the
(subquery, query) captures. -/
def simplematchWhatIsThe (s : String) : Option (String × String) :=
  let pre := "what is the ".toList
  let cs := s.toList
  if pre.isPrefixOf cs then
    match splitLastInfix " of ".toList (cs.drop pre.length) with
    | some (a, b) => some (String.mk a, String.mk b)
    | none => none
  else none

/-- WikipediaSolver.get_secondary_search (src lines 41-47): for English try
the template; on a match return (captured query, captured subquery);
otherwise fall through to the keyword extractor with no subquery. -/
def get_secondary_search (env : Env) (query lang : String) : String × Option String :=
  if lang = "en" then
    match simplematchWhatIsThe query with
    | some (subq, q) => (q, some subq)
    | none => (env.extract_subject query lang, none)
  else
    (env.extract_subject query lang, none)

/-- WikipediaSolver.extract_and_search (src lines 49-58): resolve the
language, extract the best keyword, return the empty dict when extraction is
falsy, else delegate to the inherited search with the original context. -/
def extract_and_search (env : Env) (query : String) (ctx : Ctx) : SDict :=
  let lang := resolveLang ctx.lang env.default_lang
  let q := env.extract_subject query lang
  if q = "" then SDict.empty else env.search q ctx

/-- The merged dict returned by WikipediaSolver.get_data: page-data fields
plus the prose fields, with the title defaulted. -/
structure WikiData where
  title : String
  short_answer : String
  summary : String
  sections : List PageSection
  images : List String
  deriving DecidableEq

/-- WikipediaSolver.get_data (src lines 61-89): fetch page data and prose for
the query; when page data is empty run the secondary search once, fetching
attribute-scoped prose when a subquery was captured and plain prose for the
extracted keyword otherwise; finally default the title with
page_data.get("title") or query, where query is the possibly-rewritten
subject. -/
def get_data (env : Env) (query : String) (ctx : Ctx) : WikiData :=
  let lang := resolveLang ctx.lang env.default_lang
  let pd := env.page_data query lang
  let data := (env.tldr query lang, env.summary query lang)
  match pd with
  | some p =>
    { title := pyOr p.title query
      short_answer := data.1
      summary := data.2
      sections := p.sections
      images := p.images }
  | none =>
    let qs := get_secondary_search env query lang
    let data2 :=
      if pyTruthy qs.2 then
        (env.tldr_about (qs.2.getD "") qs.1 lang, env.ask_about (qs.2.getD "") qs.1 lang)
      else
        (env.tldr qs.1 lang, env.summary qs.1 lang)
    { title := qs.1
      short_answer := data2.1
      summary := data2.2
      sections := []
      images := [] }

/-- get_data instrumented with the number of secondary-search interpretations
performed (the source calls get_secondary_search in exactly one place). -/
def get_dataT (env : Env) (query : String) (ctx : Ctx) : WikiData × Nat :=
  let lang := resolveLang ctx.lang env.default_lang
  let pd := env.page_data query lang
  let data := (env.tldr query lang, env.summary query lang)
  match pd with
  | some p =>
    ({ title := pyOr p.title query
       short_answer := data.1
       summary := data.2
       sections := p.sections
       images := p.images }, 0)
  | none =>
    let qs := get_secondary_search env query lang
    let data2 :=
      if pyTruthy qs.2 then
        (env.tldr_about (qs.2.getD "") qs.1 lang, env.ask_about (qs.2.getD "") qs.1 lang)
      else
        (env.tldr qs.1 lang, env.summary qs.1 lang)
    ({ title := qs.1
       short_answer := data2.1
       summary := data2.2
       sections := []
       images := [] }, 1)

/-- WikipediaSolver.get_spoken_answer (src lines 91-93). -/
def get_spoken_answer (env : Env) (query : String) (ctx : Ctx) : String :=
  (extract_and_search env query ctx).summary.getD ""

/-- WikipediaSolver.get_image (src lines 95-104): data["images"][0] with the
bare except returning None on a missing key or empty list. -/
def get_image (env : Env) (query : String) (ctx : Ctx) : Option String :=
  (extract_and_search env query ctx).images.head?

/-- Python str.title() restricted to ASCII letters: uppercase a letter that
follows a non-letter (or the start), lowercase every other letter. -/
def pythonTitleAux : Bool → List Char → List Char
  | _, [] => []
  | prevAlpha, c :: cs =>
    (if c.isAlpha then (if prevAlpha then c.toLower else c.toUpper) else c)
      :: pythonTitleAux c.isAlpha cs

/-- Python s.title(). -/
def pythonTitle (s : String) : String :=
  String.mk (pythonTitleAux false s.toList)

/-- One step dict of get_expanded_answer / one element of self.results. -/
structure Chunk where
  title : String
  summary : String
  img : Option String
  deriving DecidableEq

/-- WikipediaSolver.get_expanded_answer (src lines 106-133): one chunk per
sentence of the summary tagged with the title-cased data title, then one
chunk per sentence of each section's text in order, tagged with the
title-cased section title (defaulting to the query when the section carries
none); every chunk shares the single image.  get_data always sets "title",
so data.get("title", query) is data's title field. -/
def get_expanded_answer (env : Env) (query : String) (ctx : Ctx) : List Chunk :=
  let data := get_data env query ctx
  let img := get_image env query ctx
  let steps := (env.sentence_split data.summary).map
    (fun s => { title := pythonTitle data.title, summary := s, img := img })
  steps ++ data.sections.flatMap (fun sec =>
    (env.sentence_split sec.text).map
      (fun s => { title := pythonTitle (sec.title.getD query), summary := s, img := img }))

/-- What one call to WikipediaSkill.speak_result utters: either the fixed
"thats all" exhaustion dialog or one chunk's summary. -/
inductive SpeakOut where
  | exhausted
  | chunk (c : Chunk)
  deriving DecidableEq

/-- The facade's mutable per-conversation state: self.idx, self.results,
self.image, and the WikiKnows conversational context marker (none when the
context has been removed).  A failed fetch stores the empty sequence (the
Python None is equally falsy and holds no chunks). -/
structure SkillSt where
  idx : Nat
  results : List Chunk
  image : Option String
  wikiKnows : Option String
  deriving DecidableEq

/-- Placeholder chunk for the total list indexing in the embedding; the
in-bounds branch of speak_result never falls back to it. -/
def defaultChunk : Chunk := { title := "", summary := "", img := none }

/-- WikipediaSkill.speak_result (src lines 240-249): when idx + 1 exceeds the
number of results speak the "thats all" dialog, remove the WikiKnows context
and reset idx to 0; otherwise speak results[idx], set the WikiKnows context
and advance idx by one. -/
def speak_result (st : SkillSt) : SkillSt × SpeakOut :=
  if st.idx + 1 > st.results.length then
    ({ st with idx := 0, wikiKnows := none }, SpeakOut.exhausted)
  else
    ({ st with idx := st.idx + 1, wikiKnows := some "wikipedia" },
      SpeakOut.chunk (st.results.getD st.idx defaultChunk))

/-- WikipediaSkill.ask_the_wiki (src lines 217-231) with the outcome of the
external calls supplied: fetched = none models the caught solver exception
(self.results = None), img the result of self.wiki.get_image.  Returns the
new state together with the (title, summary) pair, both None when no result
was found. -/
def ask_the_wiki (st : SkillSt) (query : String) (fetched : Option (List Chunk))
    (img : Option String) : SkillSt × Option String × Option String :=
  let results := fetched.getD []
  let st' := { st with wikiKnows := some query, idx := 0, results := results, image := img }
  match results with
  | [] => (st', none, none)
  | r :: _ => (st', some (pyOrS r.title query), some r.summary)

/-- WikipediaSkill.CQS_match_query_phrase (src lines 200-209): ask the wiki;
when a truthy summary came back, advance idx by one (the first chunk is
spoken by the common-query framework) and report the match. -/
def CQS_match_query_phrase (st : SkillSt) (phrase : String)
    (fetched : Option (List Chunk)) (img : Option String) :
    SkillSt × Option (String × String) :=
  let r := ask_the_wiki st phrase fetched img
  match r.2.2 with
  | some sm =>
    if sm = "" then (r.1, none)
    else ({ r.1 with idx := r.1.idx + 1 }, some (phrase, sm))
  | none => (r.1, none)

/-- What WikipediaSkill.handle_search utters after the search: the fixed
no-answer dialog or the output of speak_result. -/
inductive Dialog where
  | noAnswer
  | spoke (out : SpeakOut)
  deriving DecidableEq

/-- WikipediaSkill.handle_search (src lines 166-179): ask the wiki, then
speak the first result via speak_result when a truthy summary came back,
else speak the no-answer dialog. -/
def handle_search (st : SkillSt) (query : String) (fetched : Option (List Chunk))
    (img : Option String) : SkillSt × Dialog :=
  let r := ask_the_wiki st query fetched img
  if pyTruthy r.2.2 then
    let p := speak_result r.1
    (p.1, Dialog.spoke p.2)
  else
    (r.1, Dialog.noAnswer)

/-- The facade operations that touch the pagination state, each carrying the
outcome of its external fetches. -/
inductive Op where
  | ask (query : String) (fetched : Option (List Chunk)) (img : Option String)
  | more
  | cqs (phrase : String) (fetched : Option (List Chunk)) (img : Option String)
  | search (query : String) (fetched : Option (List Chunk)) (img : Option String)

/-- One facade operation applied to the pagination state. -/
def stepOp (st : SkillSt) : Op → SkillSt
  | Op.ask q f i => (ask_the_wiki st q f i).1
  | Op.more => (speak_result st).1
  | Op.cqs p f i => (CQS_match_query_phrase st p f i).1
  | Op.search q f i => (handle_search st q f i).1

/-- The facade state right after WikipediaSkill.__init__ (src lines 146-149):
idx = 0, no results, no image, no context marker. -/
def initSt : SkillSt := { idx := 0, results := [], image := none, wikiKnows := none }

/-- Run a sequence of facade operations from the initial state. -/
def runOps (ops : List Op) : SkillSt := ops.foldl stepOp initSt

/-- Iterate speak_result n times, keeping the state. -/
def speakIter : Nat → SkillSt → SkillSt
  | 0, st => st
  | n + 1, st => speakIter n (speak_result st).1

/-- The output of the n-th (1-indexed) speak_result call from a state. -/
def nthSpeak (n : Nat) (st : SkillSt) : SpeakOut :=
  (speak_result (speakIter (n - 1) st)).2

/-- Fallible external calls made by ask_the_wiki: the solver's long_answer
(query, lang) and get_image (query); an error models a raised exception. -/
structure FEnv where
  long_answer : String → String → Except String (List Chunk)
  get_image : String → Except String (Option String)

/-- WikipediaSkill.ask_the_wiki (src lines 217-231) with exceptions modelled:
the try/except surrounds only the long_answer call (on error the results are
dropped, self.results = None); the subsequent get_image call sits outside the
try block, so its error propagates. -/
def ask_the_wiki_exc (fenv : FEnv) (lang : String) (st : SkillSt) (query : String) :
    Except String (SkillSt × Option String × Option String) :=
  let st1 := { st with wikiKnows := some query, idx := 0 }
  let results :=
    match fenv.long_answer query lang with
    | Except.ok r => r
    | Except.error _ => []
  match fenv.get_image query with
  | Except.error e => Except.error e
  | Except.ok img =>
    let st2 := { st1 with results := results, image := img }
    match results with
    | [] => Except.ok (st2, none, none)
    | r :: _ => Except.ok (st2, some (pyOrS r.title query), some r.summary)

/-- WikipediaSkill.handle_search (src lines 166-179) with exceptions
modelled: whatever ask_the_wiki raises propagates (the handler has no
try block of its own). -/
def handle_search_exc (fenv : FEnv) (lang : String) (st : SkillSt) (query : String) :
    Except String (SkillSt × Dialog) :=
  match ask_the_wiki_exc fenv lang st query with
  | Except.error e => Except.error e
  | Except.ok r =>
    if pyTruthy r.2.2 then
      let p := speak_result r.1
      Except.ok (p.1, Dialog.spoke p.2)
    else
      Except.ok (r.1, Dialog.noAnswer)

/-- The solver configuration dict; only the "lang" entry matters here
(none models an absent key). -/
structure Config where
  lang : Option String
  deriving DecidableEq

/-- WikipediaSolver.__init__ (src lines 30-34): config = config or empty,
then config["lang"] = "en" before initializing the base class. -/
def WikipediaSolver_init (cfg : Option Config) : Config :=
  let c := cfg.getD { lang := none }
  { c with lang := some "en" }

/-- The solver's default language, read by the base QuestionSolver (external)
from the config's "lang" entry, falling back to English. -/
def solver_default_lang (cfg : Option Config) : String :=
  pyOr (WikipediaSolver_init cfg).lang "en"

/-- WikipediaSkill.__init__ (src lines 140-144): pick lang from the settings
when the key is present, else the skill language's two-letter code, and
construct the solver with config = a dict holding that lang. -/
def skill_init_solver_config (settingsLang : Option String) (skillLang : String) : Config :=
  let lang :=
    match settingsLang with
    | some l => l
    | none => langCode skillLang
  WikipediaSolver_init (some { lang := some lang })

/-- An environment in which nothing is ever found: every fetch is empty and
the keyword extractor returns its input unchanged. -/
def envNone : Env :=
  { default_lang := "en"
    page_data := fun _ _ => none
    tldr := fun _ _ => ""
    summary := fun _ _ => ""
    tldr_about := fun _ _ _ => ""
    ask_about := fun _ _ _ => ""
    extract_subject := fun q _ => q
    search := fun _ _ => SDict.empty
    sentence_split := fun _ => [] }

/-- A sentence splitter for concrete instantiations: the whole text as one
sentence when non-empty. -/
def splitOne (t : String) : List String :=
  if t = "" then [] else [t]

/-- An environment with one page found: a summary, a titled section and an
untitled empty section. -/
def envPage : Env :=
  { default_lang := "en"
    page_data := fun _ _ =>
      some { title := some "isaac newton"
             sections := [{ title := some "early life", text := "Born in 1642." },
               { title := none, text := "" }]
             images := ["newton.jpg"] }
    tldr := fun _ _ => "short"
    summary := fun _ _ => "S1."
    tldr_about := fun _ _ _ => ""
    ask_about := fun _ _ _ => ""
    extract_subject := fun q _ => q
    search := fun _ _ => { summary := some "S1.", images := ["newton.jpg"] }
    sentence_split := splitOne }

/-- A facade environment whose long-answer call succeeds with no results but
whose image fetch raises. -/
def fenvImgRaises : FEnv :=
  { long_answer := fun _ _ => Except.ok []
    get_image := fun _ => Except.error "ConnectionError" }

/-- A facade environment whose long-answer call raises and whose image fetch
succeeds with no image. -/
def fenvSolverRaises : FEnv :=
  { long_answer := fun _ _ => Except.error "HTTPError"
    get_image := fun _ => Except.ok none }

example : simplematchWhatIsThe "what is the population of France" =
    some ("population", "France") := by rfl

example : simplematchWhatIsThe "who is Isaac Newton" = none := by rfl

example : langCode "pt-BR" = "pt" := by rfl

example : pythonTitle "isaac newton" = "Isaac Newton" := by rfl

/-- Running k pagination steps from cursor i advances the cursor by exactly
one per step while at least one chunk remains. -/
theorem speakIter_run (rs : List Chunk) (img : Option String) :
    ∀ (k i : Nat) (cw : Option String), i + k ≤ rs.length →
      speakIter k { idx := i, results := rs, image := img, wikiKnows := cw } =
        { idx := i + k, results := rs, image := img,
          wikiKnows := if k = 0 then cw else some "wikipedia" } := by
  intro k
  induction k with
  | zero => intro i cw _; simp [speakIter]
  | succ k ih =>
    intro i cw h
    have hc : ¬ (i + 1 > rs.length) := by omega
    have hsr : (speak_result { idx := i, results := rs, image := img, wikiKnows := cw }).1
        = { idx := i + 1, results := rs, image := img, wikiKnows := some "wikipedia" } := by
      simp [speak_result, hc]
    simp only [speakIter, hsr]
    rw [ih (i + 1) (some "wikipedia") (by omega)]
    have hk : i + 1 + k = i + (k + 1) := by omega
    simp [hk]

/-- Unfolding one pagination step at the back of an iteration. -/
theorem speakIter_succ_right (k : Nat) :
    ∀ st : SkillSt, speakIter (k + 1) st = (speak_result (speakIter k st)).1 := by
  induction k with
  | zero => intro st; simp [speakIter]
  | succ k ih =>
    intro st
    simp only [speakIter]
    rw [← ih (speak_result st).1]
    simp only [speakIter]

/-- C1: starting from cursor 0 over a chunk list of length N, the n-th
speak_result request (1-indexed, n ≤ N) emits chunk n-1; the (N+1)-th
request emits the exhaustion signal (a constructor distinct from any chunk),
resets the cursor to 0 and clears the WikiKnows context marker.  The bound
check happens before the increment, so the last valid index N-1 is still
emitted on the N-th request. -/
theorem pagination_exhaustion_boundary (rs : List Chunk) (img cw : Option String)
    (n : Nat) (h1 : 1 ≤ n) (h2 : n ≤ rs.length) :
    nthSpeak n { idx := 0, results := rs, image := img, wikiKnows := cw } =
      SpeakOut.chunk (rs.getD (n - 1) defaultChunk)
    ∧ nthSpeak (rs.length + 1) { idx := 0, results := rs, image := img, wikiKnows := cw } =
      SpeakOut.exhausted
    ∧ speakIter (rs.length + 1) { idx := 0, results := rs, image := img, wikiKnows := cw } =
      { idx := 0, results := rs, image := img, wikiKnows := none } := by
  have hfull : speakIter rs.length
      { idx := 0, results := rs, image := img, wikiKnows := cw } =
      { idx := rs.length, results := rs, image := img,
        wikiKnows := if rs.length = 0 then cw else some "wikipedia" } := by
    have := speakIter_run rs img rs.length 0 cw (by omega)
    simpa using this
  refine ⟨?_, ?_, ?_⟩
  · have hiter : speakIter (n - 1)
        { idx := 0, results := rs, image := img, wikiKnows := cw } =
        { idx := n - 1, results := rs, image := img,
          wikiKnows := if n - 1 = 0 then cw else some "wikipedia" } := by
      have := speakIter_run rs img (n - 1) 0 cw (by omega)
      simpa using this
    have hc : ¬ (n - 1 + 1 > rs.length) := by omega
    simp [nthSpeak, hiter, speak_result, hc]
  · have hc : rs.length + 1 > rs.length := by omega
    simp [nthSpeak, hfull, speak_result, hc]
  · have hc : rs.length + 1 > rs.length := by omega
    rw [speakIter_succ_right rs.length, hfull]
    simp [speak_result, hc]

/-- C1 witness at a concrete two-chunk list. -/
theorem pagination_exhaustion_boundary_witness :
    nthSpeak 2 { idx := 0, results := [{ title := "T", summary := "a", img := none },
        { title := "T", summary := "b", img := none }], image := none, wikiKnows := some "k" } =
      SpeakOut.chunk { title := "T", summary := "b", img := none }
    ∧ nthSpeak 3 { idx := 0, results := [{ title := "T", summary := "a", img := none },
        { title := "T", summary := "b", img := none }], image := none, wikiKnows := some "k" } =
      SpeakOut.exhausted
    ∧ speakIter 3 { idx := 0, results := [{ title := "T", summary := "a", img := none },
        { title := "T", summary := "b", img := none }], image := none, wikiKnows := some "k" } =
      { idx := 0, results := [{ title := "T", summary := "a", img := none },
        { title := "T", summary := "b", img := none }], image := none, wikiKnows := none } :=
  pagination_exhaustion_boundary
    [{ title := "T", summary := "a", img := none }, { title := "T", summary := "b", img := none }]
    none (some "k") 2 (by decide) (by decide)

/-- C7: the pagination cursor invariant 0 ≤ idx ≤ length(results) is
preserved by every facade operation (resolution resets it to 0, a chunk
emission advances it by one while in bounds, exhaustion resets it to 0),
and hence holds in every state reachable from the initial one. -/
theorem pagination_cursor_invariant :
    (∀ (st : SkillSt) (op : Op), st.idx ≤ st.results.length →
      (stepOp st op).idx ≤ (stepOp st op).results.length)
    ∧ ∀ ops : List Op, (runOps ops).idx ≤ (runOps ops).results.length := by
  have pres : ∀ (st : SkillSt) (op : Op),
      (stepOp st op).idx ≤ (stepOp st op).results.length := by
    intro st op
    cases op with
    | ask q f i =>
      simp only [stepOp, ask_the_wiki]
      cases f.getD [] with
      | nil => simp
      | cons r rest => simp
    | more =>
      simp only [stepOp, speak_result]
      by_cases h : st.idx + 1 > st.results.length
      · simp [h]
      · simp [h]; omega
    | cqs p f i =>
      simp only [stepOp, CQS_match_query_phrase, ask_the_wiki]
      cases f.getD [] with
      | nil => simp
      | cons r rest =>
        by_cases h : r.summary = ""
        · simp [h]
        · simp [h]
    | search q f i =>
      simp only [stepOp, handle_search, ask_the_wiki]
      cases f.getD [] with
      | nil => simp [pyTruthy]
      | cons r rest =>
        by_cases h : r.summary = ""
        · simp [pyTruthy, h]
        · simp [pyTruthy, h, speak_result]
  have run : ∀ (ops : List Op) (st : SkillSt), st.idx ≤ st.results.length →
      (ops.foldl stepOp st).idx ≤ (ops.foldl stepOp st).results.length := by
    intro ops
    induction ops with
    | nil => intro st h; simpa using h
    | cons op rest ih => intro st _; exact ih (stepOp st op) (pres st op)
  exact ⟨fun st op _ => pres st op, fun ops => run ops initSt (by simp [initSt])⟩

/-- C7 witness at a concrete state and a concrete operation sequence. -/
theorem pagination_cursor_invariant_witness :
    (stepOp initSt Op.more).idx ≤ (stepOp initSt Op.more).results.length
    ∧ (runOps [Op.ask "q" (some [{ title := "t", summary := "s", img := none }]) none,
        Op.more, Op.more]).idx ≤
      (runOps [Op.ask "q" (some [{ title := "t", summary := "s", img := none }]) none,
        Op.more, Op.more]).results.length :=
  ⟨pagination_cursor_invariant.1 initSt Op.more (by decide),
    pagination_cursor_invariant.2
      [Op.ask "q" (some [{ title := "t", summary := "s", img := none }]) none,
        Op.more, Op.more]⟩

/-- C2: for English queries matching the literal template
"what is the (subquery) of (query)", the secondary search returns the
captured query as the new subject and the captured subquery as the attribute
qualifier; for English queries where the template does not match, and for all
non-English queries, it returns the fallback keyword extractor's output as
subject with no qualifier — a non-match falls through, it never errors. -/
theorem secondary_search_decomposition (env : Env) :
    (∀ q a b, simplematchWhatIsThe q = some (a, b) →
      get_secondary_search env q "en" = (b, some a))
    ∧ (∀ q, simplematchWhatIsThe q = none →
      get_secondary_search env q "en" = (env.extract_subject q "en", none))
    ∧ ∀ q lang, lang ≠ "en" →
      get_secondary_search env q lang = (env.extract_subject q lang, none) := by
  refine ⟨?_, ?_, ?_⟩
  · intro q a b h
    simp [get_secondary_search, h]
  · intro q h
    simp [get_secondary_search, h]
  · intro q lang h
    simp [get_secondary_search, h]

/-- C2 witness: the template example from the spec, and a non-matching and a
non-English query. -/
theorem secondary_search_decomposition_witness :
    get_secondary_search envNone "what is the population of France" "en" =
      ("France", some "population")
    ∧ get_secondary_search envNone "who is Isaac Newton" "en" =
      ("who is Isaac Newton", none)
    ∧ get_secondary_search envNone "what is the population of France" "pt" =
      ("what is the population of France", none) :=
  ⟨(secondary_search_decomposition envNone).1 "what is the population of France"
      "population" "France" (by rfl),
    (secondary_search_decomposition envNone).2.1 "who is Isaac Newton" (by rfl),
    (secondary_search_decomposition envNone).2.2 "what is the population of France" "pt"
      (by decide)⟩

/-- The instrumented resolver computes the same merged dict as the plain one. -/
theorem get_dataT_fst (env : Env) (q : String) (ctx : Ctx) :
    (get_dataT env q ctx).1 = get_data env q ctx := by
  cases h : env.page_data q (resolveLang ctx.lang env.default_lang) <;>
    simp [get_dataT, get_data, h]

/-- C3 counterexample: with the primary page fetch empty, the secondary
decomposition rewrites the subject, and the returned title defaults to the
rewritten subject "France", not to the original query text — refuting the
claim that the title defaults to the original query whenever the page data
carried no title. -/
theorem resolver_title_counterexample :
    envNone.page_data "what is the population of France" "en" = none
    ∧ (get_data envNone "what is the population of France" { lang := none }).title = "France"
    ∧ "France" ≠ "what is the population of France" := by
  refine ⟨rfl, by rfl, by decide⟩

/-- C3 amended: the resolver performs exactly one secondary interpretation if
and only if the primary page-data fetch returns empty, and the returned title
defaults — when the page data carried no truthy title — to the current
subject text: the original query in the primary branch, the secondary
search's subject in the secondary branch. -/
theorem resolver_secondary_invariant (env : Env) (q : String) (ctx : Ctx) :
    ((get_dataT env q ctx).2 = 1 ↔
      env.page_data q (resolveLang ctx.lang env.default_lang) = none)
    ∧ (get_dataT env q ctx).2 ≤ 1
    ∧ (get_dataT env q ctx).1 = get_data env q ctx
    ∧ (env.page_data q (resolveLang ctx.lang env.default_lang) = none →
      (get_data env q ctx).title =
        (get_secondary_search env q (resolveLang ctx.lang env.default_lang)).1)
    ∧ ∀ p, env.page_data q (resolveLang ctx.lang env.default_lang) = some p →
      (get_data env q ctx).title = pyOr p.title q := by
  refine ⟨?_, ?_, get_dataT_fst env q ctx, ?_, ?_⟩
  · cases h : env.page_data q (resolveLang ctx.lang env.default_lang) <;>
      simp [get_dataT, h]
  · cases h : env.page_data q (resolveLang ctx.lang env.default_lang) <;>
      simp [get_dataT, h]
  · intro h
    simp [get_data, h]
  · intro p h
    simp [get_data, h]

/-- C3 amended witness: a found page with no title keeps the original query
as title; an empty fetch triggers exactly one secondary interpretation. -/
theorem resolver_secondary_invariant_witness :
    ((get_dataT envNone "what is the population of France" { lang := none }).2 = 1 ↔
      envNone.page_data "what is the population of France"
        (resolveLang ({ lang := none } : Ctx).lang envNone.default_lang) = none)
    ∧ (get_data envNone "what is the population of France" { lang := none }).title =
      (get_secondary_search envNone "what is the population of France"
        (resolveLang ({ lang := none } : Ctx).lang envNone.default_lang)).1 :=
  ⟨(resolver_secondary_invariant envNone "what is the population of France"
      { lang := none }).1,
    (resolver_secondary_invariant envNone "what is the population of France"
      { lang := none }).2.2.2.1 (by rfl)⟩

/-- C4: under a sentence splitter that yields only non-empty sentences (and
nothing on empty text), the expanded answer is exactly the summary sentences
first — each tagged with the title-cased page/query title — followed by each
section's sentences in the sections' original order and in their original
order within a section, tagged with the title-cased section title; every
chunk carries the one shared image, no chunk has an empty sentence, and a
section with empty text contributes zero chunks. -/
theorem paginate_order_and_tagging (env : Env) (q : String) (ctx : Ctx)
    (hempty : env.sentence_split "" = [])
    (hne : ∀ t s, s ∈ env.sentence_split t → s ≠ "") :
    get_expanded_answer env q ctx =
      ((env.sentence_split (get_data env q ctx).summary).map
        (fun s => ⟨pythonTitle (get_data env q ctx).title, s, get_image env q ctx⟩))
      ++ (get_data env q ctx).sections.flatMap (fun sec =>
        (env.sentence_split sec.text).map
          (fun s => ⟨pythonTitle (sec.title.getD q), s, get_image env q ctx⟩))
    ∧ (∀ c ∈ get_expanded_answer env q ctx,
        c.img = get_image env q ctx ∧ c.summary ≠ "")
    ∧ ∀ sec ∈ (get_data env q ctx).sections, sec.text = "" →
      ((env.sentence_split sec.text).map
        (fun s => (⟨pythonTitle (sec.title.getD q), s, get_image env q ctx⟩ : Chunk))) = [] := by
  refine ⟨rfl, ?_, ?_⟩
  · intro c hc
    simp only [get_expanded_answer, List.mem_append, List.mem_map,
      List.mem_flatMap] at hc
    rcases hc with ⟨s, hs, rfl⟩ | ⟨sec, _, s, hs, rfl⟩
    · exact ⟨rfl, hne _ s hs⟩
    · exact ⟨rfl, hne _ s hs⟩
  · intro sec _ htext
    rw [htext, hempty]
    rfl

/-- C4 witness at the concrete page environment. -/
theorem paginate_order_and_tagging_witness :
    get_expanded_answer envPage "who is Isaac Newton" { lang := none } =
      ((envPage.sentence_split
          (get_data envPage "who is Isaac Newton" { lang := none }).summary).map
        (fun s => ⟨pythonTitle
            (get_data envPage "who is Isaac Newton" { lang := none }).title, s,
          get_image envPage "who is Isaac Newton" { lang := none }⟩))
      ++ (get_data envPage "who is Isaac Newton" { lang := none }).sections.flatMap
        (fun sec => (envPage.sentence_split sec.text).map
          (fun s => ⟨pythonTitle (sec.title.getD "who is Isaac Newton"), s,
            get_image envPage "who is Isaac Newton" { lang := none }⟩))
    ∧ (∀ c ∈ get_expanded_answer envPage "who is Isaac Newton" { lang := none },
        c.img = get_image envPage "who is Isaac Newton" { lang := none }
        ∧ c.summary ≠ "")
    ∧ ∀ sec ∈ (get_data envPage "who is Isaac Newton" { lang := none }).sections,
        sec.text = "" →
        ((envPage.sentence_split sec.text).map
          (fun s => (⟨pythonTitle (sec.title.getD "who is Isaac Newton"), s,
            get_image envPage "who is Isaac Newton" { lang := none }⟩ : Chunk))) = [] :=
  paginate_order_and_tagging envPage "who is Isaac Newton" { lang := none } (by rfl)
    (by
      intro t s hs
      simp only [envPage, splitOne] at hs
      by_cases ht : t = ""
      · simp [ht] at hs
      · simp [ht] at hs
        simpa [hs] using ht)

/-- C5: not-found is a value, never an exception: when keyword extraction
yields no subject, extract_and_search returns the empty dict (so the spoken
answer is empty and there is no image); and when no page matches anywhere
(every fetch empty), get_data returns a result whose prose fields are empty
and whose structural fields are the defaults. -/
theorem notfound_is_a_value (env : Env) (q : String) (ctx : Ctx) :
    (env.extract_subject q (resolveLang ctx.lang env.default_lang) = "" →
      extract_and_search env q ctx = SDict.empty
      ∧ get_spoken_answer env q ctx = ""
      ∧ get_image env q ctx = none)
    ∧ ((∀ s l, env.page_data s l = none) → (∀ s l, env.tldr s l = "") →
      (∀ s l, env.summary s l = "") → (∀ a b l, env.tldr_about a b l = "") →
      (∀ a b l, env.ask_about a b l = "") →
      (get_data env q ctx).short_answer = ""
      ∧ (get_data env q ctx).summary = ""
      ∧ (get_data env q ctx).sections = []
      ∧ (get_data env q ctx).images = []) := by
  constructor
  · intro h
    refine ⟨?_, ?_, ?_⟩
    · simp [extract_and_search, h]
    · simp [get_spoken_answer, extract_and_search, h, SDict.empty]
    · simp [get_image, extract_and_search, h, SDict.empty]
  · intro hpd ht hs hta haa
    have h0 := hpd q (resolveLang ctx.lang env.default_lang)
    by_cases hsub : pyTruthy (get_secondary_search env q
        (resolveLang ctx.lang env.default_lang)).2
    · simp [get_data, h0, hsub, hta, haa]
    · simp [get_data, h0, hsub, ht, hs]

/-- C5 witness: in the all-empty environment, the empty query has no keyword
and any query resolves to the empty-prose result. -/
theorem notfound_is_a_value_witness :
    extract_and_search envNone "" { lang := none } = SDict.empty
    ∧ (get_data envNone "who is Isaac Newton" { lang := none }).summary = "" :=
  ⟨((notfound_is_a_value envNone "" { lang := none }).1 (by rfl)).1,
    ((notfound_is_a_value envNone "who is Isaac Newton" { lang := none }).2
      (fun _ _ => rfl) (fun _ _ => rfl) (fun _ _ => rfl)
      (fun _ _ _ => rfl) (fun _ _ _ => rfl)).2.1⟩

/-- C9: the chunk sequence is a pure function of the fetched data: two
resolutions of the same query whose fetched page data, image and sentence
splitter agree produce identical chunk sequences. -/
theorem resolution_deterministic (env env' : Env) (q : String) (ctx ctx' : Ctx)
    (hd : get_data env' q ctx' = get_data env q ctx)
    (hi : get_image env' q ctx' = get_image env q ctx)
    (hs : env'.sentence_split = env.sentence_split) :
    get_expanded_answer env' q ctx' = get_expanded_answer env q ctx := by
  simp [get_expanded_answer, hd, hi, hs]

/-- C9 witness: two consecutive resolutions in the same environment. -/
theorem resolution_deterministic_witness :
    get_expanded_answer envPage "who is Isaac Newton" { lang := none } =
      get_expanded_answer envPage "who is Isaac Newton" { lang := none } :=
  resolution_deterministic envPage envPage "who is Isaac Newton"
    { lang := none } { lang := none } rfl rfl rfl

/-- C6 counterexample: the try/except in ask_the_wiki guards only the
long-answer call; an upstream failure raised by the image fetch is not
caught anywhere in the skill, so handle_search propagates the raw error
instead of producing the no-answer dialog. -/
theorem upstream_failure_counterexample :
    handle_search_exc fenvImgRaises "en" initSt "tardigrade" =
      Except.error "ConnectionError" := by rfl

/-- C6 amended: an upstream failure raised by the solver's long-answer call
is caught at the facade, logged and converted to the empty result, and the
user hears the fixed no-answer dialog — provided the unguarded image fetch
itself returns; an image-fetch failure propagates uncaught. -/
theorem upstream_failure_absorbed (fenv : FEnv) (lang : String) (st : SkillSt)
    (q e : String) (img : Option String)
    (hl : fenv.long_answer q lang = Except.error e)
    (hi : fenv.get_image q = Except.ok img) :
    handle_search_exc fenv lang st q =
      Except.ok ({ idx := 0, results := [], image := img, wikiKnows := some q },
        Dialog.noAnswer) := by
  simp [handle_search_exc, ask_the_wiki_exc, hl, hi, pyTruthy]

/-- C6 amended witness: a concrete raising long-answer call is absorbed. -/
theorem upstream_failure_absorbed_witness :
    handle_search_exc fenvSolverRaises "en" initSt "tardigrade" =
      Except.ok ({ idx := 0, results := [], image := none, wikiKnows := some "tardigrade" },
        Dialog.noAnswer) :=
  upstream_failure_absorbed fenvSolverRaises "en" initSt "tardigrade" "HTTPError"
    none rfl rfl

/-- C8: the language used for every fetch is the two-letter code of the
explicit context override when present (and truthy), else of the default
language — both reduced to the prefix before the region separator; the
resolver's output depends on the external fetchers only at that single code,
and extract_and_search hands the extractor exactly that code. -/
theorem language_threading (env env' : Env) (q : String) (ctx : Ctx) (L : String)
    (hL : L = resolveLang ctx.lang env.default_lang)
    (hdl : env'.default_lang = env.default_lang)
    (hpd : ∀ s, env'.page_data s L = env.page_data s L)
    (ht : ∀ s, env'.tldr s L = env.tldr s L)
    (hs : ∀ s, env'.summary s L = env.summary s L)
    (hta : ∀ a b, env'.tldr_about a b L = env.tldr_about a b L)
    (haa : ∀ a b, env'.ask_about a b L = env.ask_about a b L)
    (hes : ∀ s, env'.extract_subject s L = env.extract_subject s L) :
    get_data env' q ctx = get_data env q ctx
    ∧ extract_and_search env q ctx =
      (if env.extract_subject q L = "" then SDict.empty
        else env.search (env.extract_subject q L) ctx)
    ∧ (∀ s d : String, s ≠ "" → resolveLang (some s) d = langCode s)
    ∧ ∀ d : String, resolveLang none d = langCode d := by
  subst hL
  have hsec : get_secondary_search env' q (resolveLang ctx.lang env.default_lang) =
      get_secondary_search env q (resolveLang ctx.lang env.default_lang) := by
    unfold get_secondary_search
    by_cases he : resolveLang ctx.lang env.default_lang = "en"
    · rw [he] at hes
      simp only [he, if_pos rfl]
      cases simplematchWhatIsThe q <;> simp [hes]
    · simp [he, hes]
  refine ⟨?_, ?_, ?_, ?_⟩
  · simp only [get_data, hdl, hsec]
    cases hp : env.page_data q (resolveLang ctx.lang env.default_lang) with
    | none => simp [hp, hpd, hsec, ht, hs, hta, haa]
    | some p => simp [hp, hpd, ht, hs]
  · simp [extract_and_search]
  · intro s d hs'
    simp [resolveLang, pyOr, hs']
  · intro d
    simp [resolveLang, pyOr]

/-- C8 witness: a Portuguese locale override is reduced to its two-letter
code and threads through a concrete resolution. -/
theorem language_threading_witness :
    get_data envNone "quem foi Isaac Newton" { lang := some "pt-BR" } =
      get_data envNone "quem foi Isaac Newton" { lang := some "pt-BR" }
    ∧ resolveLang (some "pt-BR") "en" = langCode "pt-BR"
    ∧ langCode "pt-BR" = "pt" :=
  ⟨(language_threading envNone envNone "quem foi Isaac Newton" { lang := some "pt-BR" }
      (resolveLang (some "pt-BR") "en") rfl rfl (fun _ => rfl) (fun _ => rfl)
      (fun _ => rfl) (fun _ _ => rfl) (fun _ _ => rfl) (fun _ => rfl)).1,
    (language_threading envNone envNone "quem foi Isaac Newton" { lang := some "pt-BR" }
      (resolveLang (some "pt-BR") "en") rfl rfl (fun _ => rfl) (fun _ => rfl)
      (fun _ => rfl) (fun _ _ => rfl) (fun _ _ => rfl) (fun _ => rfl)).2.2.1
      "pt-BR" "en" (by decide),
    by rfl⟩

/-- C10: WikipediaSolver.__init__ overwrites the configuration's language
entry with "en" before initializing, so the solver's default language is
English regardless of the skill facade's configured language, and a
non-English code can reach the fetch layer only through a truthy per-request
context override (whose two-letter code it then is). -/
theorem solver_forces_english (cfg : Option Config) (sLang : Option String)
    (kLang : String) :
    (WikipediaSolver_init cfg).lang = some "en"
    ∧ solver_default_lang cfg = "en"
    ∧ (skill_init_solver_config sLang kLang).lang = some "en"
    ∧ ∀ ctx : Ctx, resolveLang ctx.lang "en" ≠ "en" →
      ∃ s, ctx.lang = some s ∧ s ≠ "" ∧ resolveLang ctx.lang "en" = langCode s := by
  refine ⟨rfl, rfl, ?_, ?_⟩
  · simp [skill_init_solver_config, WikipediaSolver_init]
  · intro ctx h
    cases hc : ctx.lang with
    | none =>
      rw [hc] at h
      exact absurd rfl h
    | some s =>
      by_cases hs0 : s = ""
      · rw [hc, hs0] at h
        exact absurd rfl h
      · refine ⟨s, rfl, hs0, ?_⟩
        simp [resolveLang, pyOr, hs0]

/-- C10 witness: a Portuguese-configured facade still yields an English
solver default, and a pt-BR override is the only way a non-English code is
used. -/
theorem solver_forces_english_witness :
    (WikipediaSolver_init (some { lang := some "pt" })).lang = some "en"
    ∧ solver_default_lang (some { lang := some "pt" }) = "en"
    ∧ (skill_init_solver_config none "pt-BR").lang = some "en"
    ∧ ∃ s, (some "pt-BR" : Option String) = some s ∧ s ≠ ""
      ∧ resolveLang (some "pt-BR") "en" = langCode s :=
  ⟨(solver_forces_english (some { lang := some "pt" }) none "pt-BR").1,
    (solver_forces_english (some { lang := some "pt" }) none "pt-BR").2.1,
    (solver_forces_english (some { lang := some "pt" }) none "pt-BR").2.2.1,
    (solver_forces_english (some { lang := some "pt" }) none "pt-BR").2.2.2
      { lang := some "pt-BR" } (by decide)⟩

end WikiSkill
